import Mathlib

/-!
Verification development for the CashTrackerView SMS ledger.

The JavaScript handler in `src/index.js` (variant `src/unnamed/part_000`)
is shallowly embedded below: strings are `List Char`, decimal amounts are
exact rationals, timestamps are integer milliseconds in the reference
timezone, and the Supabase / Twilio collaborators are explicit oracles.
-/

namespace CashTracker

/-! ### Characters and strings (JS `trim`, `toLowerCase`, `\d`) -/

/-- Code points removed by JavaScript `String.prototype.trim`. -/
def wsCodes : List Nat :=
  [9, 10, 11, 12, 13, 32, 160, 5760, 8192, 8193, 8194, 8195, 8196, 8197,
   8198, 8199, 8200, 8201, 8202, 8232, 8233, 8239, 8287, 12288, 65279]

def isWsC (c : Char) : Bool := wsCodes.contains c.toNat

/-- Leading-whitespace strip, first half of JS `trim`. -/
def ltrim (l : List Char) : List Char := l.dropWhile isWsC

/-- Trailing-whitespace strip, second half of JS `trim`. -/
def rtrim (l : List Char) : List Char := ((l.reverse).dropWhile isWsC).reverse

/-- JS `String.prototype.trim`, as used on `req.body.Body` at line 38. -/
def jsTrim (l : List Char) : List Char := rtrim (ltrim l)

/-- ASCII lowering of one character, the fragment of JS `toLowerCase`
exercised by the keyword comparison. -/
def lowerChar (c : Char) : Char :=
  if 65 ≤ c.toNat ∧ c.toNat ≤ 90 then Char.ofNat (c.toNat + 32) else c

def jsToLower (l : List Char) : List Char := l.map lowerChar

/-- The regex class `\d` (ASCII digits only, as in JS). -/
def isDigitC (c : Char) : Bool := 48 ≤ c.toNat ∧ c.toNat ≤ 57

def digitVal (c : Char) : Nat := c.toNat - 48

/-! ### The numeric-entry regex `^\d+(\.\d+)?$` -/

def digitsB (l : List Char) : Bool := !l.isEmpty && l.all isDigitC

/-- Scanner for the tail of `^\d+(\.\d+)?$` once inside the integer part. -/
def numTestRun : List Char → Bool
  | [] => true
  | c :: cs => if isDigitC c then numTestRun cs else (c = '.') && digitsB cs

/-- `numberRegex.test`, the whole-string match of `^\d+(\.\d+)?$`. -/
def numTest : List Char → Bool
  | [] => false
  | c :: cs => isDigitC c && numTestRun (c :: cs)

def digitsToNat (l : List Char) : Nat := l.foldl (fun a c => a * 10 + digitVal c) 0

/-- `parseFloat` on a string already known to match the numeric regex,
read as an exact decimal. -/
def parseDec (l : List Char) : ℚ :=
  let intPart := l.takeWhile (fun c => c ≠ '.')
  match l.dropWhile (fun c => c ≠ '.') with
  | [] => (digitsToNat intPart : ℚ)
  | _ :: frac => (digitsToNat intPart : ℚ) + (digitsToNat frac : ℚ) / (10 ^ frac.length)

/-! ### Strict date parsing (moment with the six formats of line 73) -/

def monthsFullL : List (List Char) :=
  ["january".toList, "february".toList, "march".toList, "april".toList,
   "may".toList, "june".toList, "july".toList, "august".toList,
   "september".toList, "october".toList, "november".toList, "december".toList]

def monthsShortL : List (List Char) :=
  ["jan".toList, "feb".toList, "mar".toList, "apr".toList, "may".toList,
   "jun".toList, "jul".toList, "aug".toList, "sep".toList, "oct".toList,
   "nov".toList, "dec".toList]

/-- Case-insensitive prefix strip: `pat` is lowercase; on success returns
the unconsumed remainder of `l`. -/
def stripCI : List Char → List Char → Option (List Char)
  | [], rest => some rest
  | _ :: _, [] => none
  | p :: ps, c :: cs => if lowerChar c = p then stripCI ps cs else none

/-- First month name (0-indexed from `i`) that is a case-insensitive
prefix of the input, with the remainder. -/
def findMonthAux : Nat → List (List Char) → List Char → Option (Nat × List Char)
  | _, [], _ => none
  | i, n :: ns, l =>
    match stripCI n l with
    | some rest => some (i, rest)
    | none => findMonthAux (i + 1) ns l

/-- Exactly `n` consecutive ASCII digits, returning their value and the rest. -/
def takeDigitsExact : Nat → Nat → List Char → Option (Nat × List Char)
  | 0, acc, l => some (acc, l)
  | _ + 1, _, [] => none
  | n + 1, acc, c :: cs =>
    if isDigitC c then takeDigitsExact n (acc * 10 + digitVal c) cs else none

/-- Greedy one-or-two-digit token (moment `M` / `D`). -/
def take1or2 : List Char → Option (Nat × List Char)
  | [] => none
  | [c] => if isDigitC c then some (digitVal c, []) else none
  | c :: d :: cs =>
    if isDigitC c then
      if isDigitC d then some (10 * digitVal c + digitVal d, cs)
      else some (digitVal c, d :: cs)
    else none

/-- Gregorian leap-year rule used by the calendar. -/
def isLeap (y : Nat) : Prop := y % 4 = 0 ∧ (y % 100 ≠ 0 ∨ y % 400 = 0)

instance (y : Nat) : Decidable (isLeap y) := by unfold isLeap; infer_instance

/-- Days in a 1-indexed month. -/
def daysInMonth (y : Nat) : Nat → Nat
  | 2 => if isLeap y then 29 else 28
  | 4 => 30
  | 6 => 30
  | 9 => 30
  | 11 => 30
  | _ => 31

/-- A strictly parsed date: moment's 0-indexed month, day of month, year. -/
structure MDY where
  month : Nat
  day : Nat
  year : Nat
deriving DecidableEq

/-- The rest of a format after one token: expect the literal separator
`sep`, then exactly four digits (`YYYY`), then end of input. -/
def sepYearEnd (sep : Char) (rest : List Char) : Option Nat :=
  match rest with
  | [] => none
  | c :: r =>
    if c = sep then
      match takeDigitsExact 4 0 r with
      | none => none
      | some (y, r2) => if r2 = [] then some y else none
    else none

/-- Strict parse against `MMMM YYYY` / `MMM YYYY` (month-name list given
lowercase); the day defaults to 1. -/
def pMonthNameFmt (names : List (List Char)) (l : List Char) : Option MDY :=
  match findMonthAux 0 names l with
  | none => none
  | some (m, rest) =>
    match sepYearEnd ' ' rest with
    | none => none
    | some y => some ⟨m, 1, y⟩

/-- Strict parse against `MM/YYYY`. -/
def pMM_YYYY (l : List Char) : Option MDY :=
  match takeDigitsExact 2 0 l with
  | none => none
  | some (m, rest) =>
    match sepYearEnd '/' rest with
    | none => none
    | some y => if 1 ≤ m ∧ m ≤ 12 then some ⟨m - 1, 1, y⟩ else none

/-- Strict parse against `M/YYYY`. -/
def pM_YYYY (l : List Char) : Option MDY :=
  match take1or2 l with
  | none => none
  | some (m, rest) =>
    match sepYearEnd '/' rest with
    | none => none
    | some y => if 1 ≤ m ∧ m ≤ 12 then some ⟨m - 1, 1, y⟩ else none

/-- Strict parse against `MM/DD/YYYY`. -/
def pMM_DD_YYYY (l : List Char) : Option MDY :=
  match takeDigitsExact 2 0 l with
  | none => none
  | some (m, rest) =>
    match rest with
    | [] => none
    | c :: r =>
      if c = '/' then
        match takeDigitsExact 2 0 r with
        | none => none
        | some (d, rest2) =>
          match sepYearEnd '/' rest2 with
          | none => none
          | some y =>
            if 1 ≤ m ∧ m ≤ 12 ∧ 1 ≤ d ∧ d ≤ daysInMonth y m then some ⟨m - 1, d, y⟩
            else none
      else none

/-- Strict parse against `M/D/YYYY`. -/
def pM_D_YYYY (l : List Char) : Option MDY :=
  match take1or2 l with
  | none => none
  | some (m, rest) =>
    match rest with
    | [] => none
    | c :: r =>
      if c = '/' then
        match take1or2 r with
        | none => none
        | some (d, rest2) =>
          match sepYearEnd '/' rest2 with
          | none => none
          | some y =>
            if 1 ≤ m ∧ m ≤ 12 ∧ 1 ≤ d ∧ d ≤ daysInMonth y m then some ⟨m - 1, d, y⟩
            else none
      else none

/-- `moment(incomingMsg, formats, true)` with the six formats of line 73,
first valid format wins. -/
def firstParse (l : List Char) : Option MDY :=
  match pMonthNameFmt monthsFullL l with
  | some d => some d
  | none =>
    match pMonthNameFmt monthsShortL l with
    | some d => some d
    | none =>
      match pMM_YYYY l with
      | some d => some d
      | none =>
        match pM_YYYY l with
        | some d => some d
        | none =>
          match pMM_DD_YYYY l with
          | some d => some d
          | none => pM_D_YYYY l

/-- The line 78 fallback: append a space and the reference year, then
strict-parse against only the two month-name formats. -/
def retryParse (l : List Char) (refYear : Nat) : Option MDY :=
  match pMonthNameFmt monthsFullL (l ++ ' ' :: (toString refYear).toList) with
  | some d => some d
  | none => pMonthNameFmt monthsShortL (l ++ ' ' :: (toString refYear).toList)

/-! ### Classification -/

/-- The four intents the handler distinguishes. -/
inductive Intent where
  | total : Intent
  | cashEntry (amount : ℚ) : Intent
  | monthQuery (d : MDY) : Intent
  | invalid : Intent
deriving DecidableEq

/-- Decision tree of lines 43–112 applied to the already-trimmed message. -/
def classifyTrimmed (t : List Char) (refYear : Nat) : Intent :=
  if jsToLower t = "total".toList then .total
  else if numTest t then .cashEntry (parseDec t)
  else
    match firstParse t with
    | some d => .monthQuery d
    | none =>
      match retryParse t refYear with
      | some d => .monthQuery d
      | none => .invalid

/-- Intent classification of the raw message body: trim once (line 38),
then run the decision tree. -/
def classify (raw : List Char) (refYear : Nat) : Intent :=
  classifyTrimmed (jsTrim raw) refYear

/-! ### Calendar instants (milliseconds in the reference timezone) -/

/-- Number of leap years in `[1, n]`. -/
def leapCount (n : Nat) : Int := ((n / 4 : Nat) : Int) - ((n / 100 : Nat) : Int) + ((n / 400 : Nat) : Int)

/-- Days of year `y` strictly before 1-indexed month `m` (cumulated
month lengths; only February depends on the year). -/
def daysBeforeMonth (y : Nat) : Nat → Nat
  | 0 => 0
  | 1 => 0
  | 2 => 31
  | 3 => 31 + daysInMonth y 2
  | 4 => 62 + daysInMonth y 2
  | 5 => 92 + daysInMonth y 2
  | 6 => 123 + daysInMonth y 2
  | 7 => 153 + daysInMonth y 2
  | 8 => 184 + daysInMonth y 2
  | 9 => 215 + daysInMonth y 2
  | 10 => 245 + daysInMonth y 2
  | 11 => 276 + daysInMonth y 2
  | _ => 306 + daysInMonth y 2

/-- Day count from the civil epoch 0001-01-01 to year `y`, 1-indexed
month `m`, day `d` (meaningful for `1 ≤ y`). -/
def dayNumber (y m d : Nat) : Int :=
  365 * ((y : Int) - 1) + leapCount (y - 1) + (daysBeforeMonth y m : Int) + ((d : Int) - 1)

def msPerDay : Int := 86400000

/-- `moment({year, month, day: 1})` (line 87): first instant of the
0-indexed month `m0` of year `y`. -/
def monthStartMs (y m0 : Nat) : Int := msPerDay * dayNumber y (m0 + 1) 1

/-- First instant of the month following 0-indexed `m0` of year `y`. -/
def nextMonthStartMs (y m0 : Nat) : Int :=
  if 11 ≤ m0 then monthStartMs (y + 1) 0 else monthStartMs y (m0 + 1)

/-- `moment({year, month}).endOf('month')` (line 88): moment computes the
end of a month as the start of the next month minus one millisecond. -/
def endOfMonthMs (y m0 : Nat) : Int := nextMonthStartMs y m0 - 1

/-- The `(startDate, endDate)` pair of lines 87–88 for a parsed month. -/
def resolvedRange (y m0 : Nat) : Int × Int := (monthStartMs y m0, endOfMonthMs y m0)

/-! ### Reply formatting -/

/-- `Number.prototype.toFixed(2)` on an exact decimal, rounding half up. -/
def toFixed2 (q : ℚ) : String :=
  let n : Int := ⌊q * 100 + 1 / 2⌋
  let fp := (n % 100).toNat
  toString (n / 100) ++ "." ++ (if fp < 10 then "0" ++ toString fp else toString fp)

def monthsDisplay : List String :=
  ["January", "February", "March", "April", "May", "June", "July",
   "August", "September", "October", "November", "December"]

/-- Moment's `YYYY` output token: the year zero-padded to four digits. -/
def pad4 (y : Nat) : String :=
  if y < 10 then "000" ++ toString y
  else if y < 100 then "00" ++ toString y
  else if y < 1000 then "0" ++ toString y
  else toString y

/-- `dateQuery.format('MMMM YYYY')` (line 104). -/
def displayLabel (d : MDY) : String := monthsDisplay.getD d.month "" ++ " " ++ pad4 d.year

/-! ### Persistence and the SMS handler -/

/-- One `cash_entries` row as the month/total queries see it:
`created_at` in milliseconds and `amount`. -/
abbrev DbRow := Int × ℚ

/-- The Supabase collaborator: its table contents and whether its read
or write calls fail (the `error` field of the returned object). -/
structure Db where
  rows : List DbRow
  selectError : Bool
  insertError : Bool

/-- One persistence call made by the handler. -/
inductive DbCall where
  | selectAll : DbCall
  | insert (phone : List Char) (amount : ℚ) : DbCall
  | selectRange (startMs endMs : Int) : DbCall
deriving DecidableEq

/-- `data.reduce((sum, entry) => sum + parseFloat(entry.amount), 0)` over
the whole table (line 51). -/
def sumAll (db : Db) : ℚ := (db.rows.map Prod.snd).sum

/-- The same reduction over `.gte('created_at', s).lte('created_at', e)`
(lines 94–95): both comparisons are inclusive. -/
def sumRangeIncl (db : Db) (s e : Int) : ℚ :=
  ((db.rows.filter fun r => decide (s ≤ r.1) && decide (r.1 ≤ e)).map Prod.snd).sum

def retrieveErrMsg : String := "An error occurred while retrieving data. Please try again later."
def saveErrMsg : String := "An error occurred while saving your entry. Please try again later."
def recordedMsg : String := "Your cash entry has been recorded."
def invalidMsg : String :=
  "Invalid input. Please send a number, a valid date (e.g., \"March 2023\" or \"03/2023\"), or \"total\"."
def unexpectedMsg : String := "An unexpected error occurred. Please try again later."

/-- Branch bodies of lines 43–112 given the classified intent: the reply
text and the persistence calls issued. -/
def handleClassified (intent : Intent) (fromNumber : List Char) (db : Db) : String × List DbCall :=
  match intent with
  | .total =>
    if db.selectError then (retrieveErrMsg, [.selectAll])
    else ("Total cash collected: $" ++ toFixed2 (sumAll db), [.selectAll])
  | .cashEntry a =>
    if db.insertError then (saveErrMsg, [.insert fromNumber a])
    else (recordedMsg, [.insert fromNumber a])
  | .monthQuery d =>
    let r := resolvedRange d.year d.month
    if db.selectError then (retrieveErrMsg, [.selectRange r.1 r.2])
    else ("Total cash for " ++ displayLabel d ++ ": $" ++ toFixed2 (sumRangeIncl db r.1 r.2),
          [.selectRange r.1 r.2])
  | .invalid => (invalidMsg, [])

/-- The inbound webhook payload; `Body` may be absent, in which case the
`.trim()` call of line 38 throws. -/
structure RawRequest where
  body : Option (List Char)
  fromNumber : List Char

/-- The `try` block of `app.post('/sms')`: either a reply with its
persistence calls, or the exception it raised. -/
def handleSmsInner (refYear : Nat) (req : RawRequest) (db : Db) :
    Except String (String × List DbCall) :=
  match req.body with
  | none => .error "TypeError: Cannot read properties of undefined (reading trim)"
  | some b => .ok (handleClassified (classify b refYear) req.fromNumber db)

/-- The whole `app.post('/sms')` handler: the `catch` of line 113 turns
any exception into the generic fixed reply. -/
def handleSms (refYear : Nat) (req : RawRequest) (db : Db) : String × List DbCall :=
  match handleSmsInner refYear req db with
  | .ok r => r
  | .error _ => (unexpectedMsg, [])

/-! ### The daily-prompt trigger (GET /send-sms and the cron variant) -/

/-- Environment of the trigger paths. -/
structure TrigEnv where
  userPhoneNumber : Option (List Char)
  twilioPhoneNumber : List Char

/-- Outcome of `twilioClient.messages.create`: resolves with a message
sid, or rejects. -/
inductive SendResult where
  | ok (sid : List Char) : SendResult
  | err (e : List Char) : SendResult
deriving DecidableEq

/-- One outbound SMS handed to the messaging provider. -/
structure SentMsg where
  msgBody : String
  msgFrom : List Char
  msgTo : List Char
deriving DecidableEq

def promptBody : String := "How much cash did you make today?"

/-- The HTTP response of `app.get('/send-sms')` as status code and body,
with the messages handed to Twilio. -/
def sendSmsEndpoint (env : TrigEnv) (msgr : SendResult) : (Nat × String) × List SentMsg :=
  match env.userPhoneNumber with
  | none => ((500, "User phone number not configured."), [])
  | some dest =>
    match msgr with
    | .ok _ => ((200, "SMS sent."), [⟨promptBody, env.twilioPhoneNumber, dest⟩])
    | .err _ => ((500, "Error sending SMS."), [⟨promptBody, env.twilioPhoneNumber, dest⟩])

/-- The `try` block of the node-cron callback (part_000 lines 136–148):
either completes or raises the rejected send. -/
def cronCallbackBody (env : TrigEnv) (msgr : SendResult) :
    Except (List Char) Unit × List SentMsg :=
  match env.userPhoneNumber with
  | none => (.ok (), [])
  | some dest =>
    match msgr with
    | .ok _ => (.ok (), [⟨promptBody, env.twilioPhoneNumber, dest⟩])
    | .err e => (.error e, [⟨promptBody, env.twilioPhoneNumber, dest⟩])

/-- The whole cron callback: its `catch` (line 149) logs the error and
returns normally, so the callback never rejects. -/
def cronCallback (env : TrigEnv) (msgr : SendResult) :
    Except (List Char) Unit × List SentMsg :=
  match cronCallbackBody env msgr with
  | (.ok _, sent) => (.ok (), sent)
  | (.error _, sent) => (.ok (), sent)

/-- The half-open range a month query covers, read off an intent. -/
def intentRange : Intent → Option (Int × Int)
  | .monthQuery d => some (resolvedRange d.year d.month)
  | _ => none

/-- Constructor tag of an intent. -/
def intentTag : Intent → Fin 4
  | .total => 0
  | .cashEntry _ => 1
  | .monthQuery _ => 2
  | .invalid => 3

/-- The finitely many reply shapes the SMS handler can produce. -/
def validReply (s : String) : Prop :=
  s = recordedMsg ∨ s = saveErrMsg ∨ s = retrieveErrMsg ∨ s = invalidMsg ∨ s = unexpectedMsg
    ∨ (∃ q, s = "Total cash collected: $" ++ toFixed2 q)
    ∨ (∃ d q, s = "Total cash for " ++ displayLabel d ++ ": $" ++ toFixed2 q)

/-! ### Supporting lemmas -/

lemma ltrim_ws_all (w : List Char) (hw : ∀ c ∈ w, isWsC c = true) : ltrim w = [] :=
  List.dropWhile_eq_nil_iff.mpr hw

lemma jsTrim_pad (w s w2 : List Char) (hw : ∀ c ∈ w, isWsC c = true)
    (hw2 : ∀ c ∈ w2, isWsC c = true) : jsTrim (w ++ s ++ w2) = jsTrim s := by
  have hwE : (List.dropWhile isWsC w).isEmpty = true := by
    have h := ltrim_ws_all w hw
    unfold ltrim at h
    rw [h]
    rfl
  have hw2E : List.dropWhile isWsC w2 = [] := by
    have h := ltrim_ws_all w2 hw2
    unfold ltrim at h
    exact h
  have hw2revE : (List.dropWhile isWsC w2.reverse).isEmpty = true := by
    have h := ltrim_ws_all w2.reverse fun c hc => hw2 c (List.mem_reverse.mp hc)
    unfold ltrim at h
    rw [h]
    rfl
  unfold jsTrim ltrim rtrim
  rw [List.append_assoc, List.dropWhile_append, if_pos hwE]
  by_cases hs : (List.dropWhile isWsC s).isEmpty = true
  · rw [List.dropWhile_append, if_pos hs, List.isEmpty_iff.mp hs, hw2E]
  · rw [List.dropWhile_append, if_neg hs, List.reverse_append, List.dropWhile_append,
      if_pos hw2revE]

lemma classify_pad (w s w2 : List Char) (ry : Nat) (hw : ∀ c ∈ w, isWsC c = true)
    (hw2 : ∀ c ∈ w2, isWsC c = true) : classify (w ++ s ++ w2) ry = classify s ry := by
  unfold classify
  rw [jsTrim_pad w s w2 hw hw2]

lemma handleSms_some (ry : Nat) (b fr : List Char) (db : Db) :
    handleSms ry ⟨some b, fr⟩ db = handleClassified (classify b ry) fr db := rfl

lemma numTest_exists_head {t : List Char} (h : numTest t = true) :
    ∃ c cs, t = c :: cs ∧ isDigitC c = true := by
  cases t with
  | nil => exact absurd h (by simp [numTest])
  | cons c cs =>
    refine ⟨c, cs, rfl, ?_⟩
    simp only [numTest, Bool.and_eq_true] at h
    exact h.1

lemma lowerChar_digit {c : Char} (h : isDigitC c = true) : lowerChar c = c := by
  have hd := of_decide_eq_true h
  unfold lowerChar
  rw [if_neg]
  omega

lemma numTest_ne_total {t : List Char} (h : numTest t = true) :
    ¬jsToLower t = "total".toList := by
  obtain ⟨c, cs, rfl, hc⟩ := numTest_exists_head h
  intro hEq
  have h1 : lowerChar c = 't' := by
    have := congrArg List.head? hEq
    simpa [jsToLower] using this
  rw [lowerChar_digit hc] at h1
  rw [h1] at hc
  exact absurd hc (by decide)

lemma findMonthAux_lt {i : Nat} {ns : List (List Char)} {l : List Char} {m : Nat}
    {r : List Char} (h : findMonthAux i ns l = some (m, r)) : m < i + ns.length := by
  induction ns generalizing i with
  | nil => exact absurd h (by simp [findMonthAux])
  | cons n ns ih =>
    unfold findMonthAux at h
    cases hs : stripCI n l with
    | some rest =>
      rw [hs] at h
      simp only [Option.some.injEq, Prod.mk.injEq] at h
      simp only [List.length_cons]
      omega
    | none =>
      rw [hs] at h
      have := ih h
      simp only [List.length_cons]
      omega

lemma pMonthNameFmt_month_le (names : List (List Char)) {l : List Char} {d : MDY}
    (hlen : names.length ≤ 12) (h : pMonthNameFmt names l = some d) : d.month ≤ 11 := by
  unfold pMonthNameFmt at h
  split at h
  · exact absurd h (by simp)
  · rename_i m rest heq
    have hb := findMonthAux_lt heq
    split at h
    · exact absurd h (by simp)
    · cases h
      show m ≤ 11
      omega

lemma pMM_YYYY_month_le {l : List Char} {d : MDY} (h : pMM_YYYY l = some d) :
    d.month ≤ 11 := by
  unfold pMM_YYYY at h
  split at h
  · exact absurd h (by simp)
  · rename_i m rest heq
    split at h
    · exact absurd h (by simp)
    · split at h
      · cases h
        rename_i hc
        show m - 1 ≤ 11
        omega
      · exact absurd h (by simp)

lemma pM_YYYY_month_le {l : List Char} {d : MDY} (h : pM_YYYY l = some d) :
    d.month ≤ 11 := by
  unfold pM_YYYY at h
  split at h
  · exact absurd h (by simp)
  · rename_i m rest heq
    split at h
    · exact absurd h (by simp)
    · split at h
      · cases h
        rename_i hc
        show m - 1 ≤ 11
        omega
      · exact absurd h (by simp)

lemma pMM_DD_YYYY_month_le {l : List Char} {d : MDY} (h : pMM_DD_YYYY l = some d) :
    d.month ≤ 11 := by
  unfold pMM_DD_YYYY at h
  split at h
  · exact absurd h (by simp)
  · rename_i m rest heq
    split at h
    · exact absurd h (by simp)
    · split at h
      · split at h
        · exact absurd h (by simp)
        · split at h
          · exact absurd h (by simp)
          · split at h
            · cases h
              rename_i hc
              show m - 1 ≤ 11
              omega
            · exact absurd h (by simp)
      · exact absurd h (by simp)

lemma pM_D_YYYY_month_le {l : List Char} {d : MDY} (h : pM_D_YYYY l = some d) :
    d.month ≤ 11 := by
  unfold pM_D_YYYY at h
  split at h
  · exact absurd h (by simp)
  · rename_i m rest heq
    split at h
    · exact absurd h (by simp)
    · split at h
      · split at h
        · exact absurd h (by simp)
        · split at h
          · exact absurd h (by simp)
          · split at h
            · cases h
              rename_i hc
              show m - 1 ≤ 11
              omega
            · exact absurd h (by simp)
      · exact absurd h (by simp)

lemma firstParse_month_le {l : List Char} {d : MDY} (h : firstParse l = some d) :
    d.month ≤ 11 := by
  unfold firstParse at h
  split at h
  · cases h
    exact pMonthNameFmt_month_le monthsFullL (by decide) ‹_›
  · split at h
    · cases h
      exact pMonthNameFmt_month_le monthsShortL (by decide) ‹_›
    · split at h
      · cases h
        exact pMM_YYYY_month_le ‹_›
      · split at h
        · cases h
          exact pM_YYYY_month_le ‹_›
        · split at h
          · cases h
            exact pMM_DD_YYYY_month_le ‹_›
          · exact pM_D_YYYY_month_le h

lemma retryParse_month_le {l : List Char} {ry : Nat} {d : MDY}
    (h : retryParse l ry = some d) : d.month ≤ 11 := by
  unfold retryParse at h
  split at h
  · cases h
    exact pMonthNameFmt_month_le monthsFullL (by decide) ‹_›
  · exact pMonthNameFmt_month_le monthsShortL (by decide) h

lemma classify_month_le {s : List Char} {ry : Nat} {d : MDY}
    (h : classify s ry = .monthQuery d) : d.month ≤ 11 := by
  unfold classify classifyTrimmed at h
  by_cases h1 : jsToLower (jsTrim s) = "total".toList
  · rw [if_pos h1] at h
    exact absurd h (by simp)
  · rw [if_neg h1] at h
    by_cases h2 : numTest (jsTrim s) = true
    · rw [if_pos h2] at h
      exact absurd h (by simp)
    · rw [if_neg h2] at h
      split at h
      · cases h
        exact firstParse_month_le ‹_›
      · split at h
        · cases h
          exact retryParse_month_le ‹_›
        · exact absurd h (by simp)

lemma nextMonthStart_eq {y m0 : Nat} (hy : 1 ≤ y) (hm : m0 ≤ 11) :
    nextMonthStartMs y m0 = monthStartMs y m0 + msPerDay * (daysInMonth y (m0 + 1) : Int) := by
  interval_cases m0 <;>
  · simp only [nextMonthStartMs, monthStartMs, dayNumber, leapCount, msPerDay,
      show daysBeforeMonth y 1 = 0 from rfl, show daysBeforeMonth y 2 = 31 from rfl,
      show daysBeforeMonth y 3 = 31 + daysInMonth y 2 from rfl,
      show daysBeforeMonth y 4 = 62 + daysInMonth y 2 from rfl,
      show daysBeforeMonth y 5 = 92 + daysInMonth y 2 from rfl,
      show daysBeforeMonth y 6 = 123 + daysInMonth y 2 from rfl,
      show daysBeforeMonth y 7 = 153 + daysInMonth y 2 from rfl,
      show daysBeforeMonth y 8 = 184 + daysInMonth y 2 from rfl,
      show daysBeforeMonth y 9 = 215 + daysInMonth y 2 from rfl,
      show daysBeforeMonth y 10 = 245 + daysInMonth y 2 from rfl,
      show daysBeforeMonth y 11 = 276 + daysInMonth y 2 from rfl,
      show daysBeforeMonth y 12 = 306 + daysInMonth y 2 from rfl,
      show daysBeforeMonth (y + 1) 1 = 0 from rfl,
      show daysInMonth y 1 = 31 from rfl, show daysInMonth y 3 = 31 from rfl,
      show daysInMonth y 4 = 30 from rfl, show daysInMonth y 5 = 31 from rfl,
      show daysInMonth y 6 = 30 from rfl, show daysInMonth y 7 = 31 from rfl,
      show daysInMonth y 8 = 31 from rfl, show daysInMonth y 9 = 30 from rfl,
      show daysInMonth y 10 = 31 from rfl, show daysInMonth y 11 = 30 from rfl,
      show daysInMonth y 12 = 31 from rfl]
    first
    | omega
    | (rw [show daysInMonth y 2 = if isLeap y then 29 else 28 from rfl]
       by_cases h4 : y % 4 = 0 <;> by_cases h100 : y % 100 = 0 <;>
         by_cases h400 : y % 400 = 0 <;>
         simp only [isLeap, h4, h100, h400] <;> simp <;> omega)

lemma handleClassified_validReply (intent : Intent) (fr : List Char) (db : Db) :
    validReply (handleClassified intent fr db).1 := by
  cases intent with
  | total =>
    show validReply (if db.selectError then (retrieveErrMsg, [DbCall.selectAll])
      else ("Total cash collected: $" ++ toFixed2 (sumAll db), [DbCall.selectAll])).1
    by_cases hse : db.selectError = true
    · rw [if_pos hse]
      exact Or.inr (Or.inr (Or.inl rfl))
    · rw [if_neg hse]
      exact Or.inr (Or.inr (Or.inr (Or.inr (Or.inr (Or.inl ⟨sumAll db, rfl⟩)))))
  | cashEntry a =>
    show validReply (if db.insertError then (saveErrMsg, [DbCall.insert fr a])
      else (recordedMsg, [DbCall.insert fr a])).1
    by_cases hie : db.insertError = true
    · rw [if_pos hie]
      exact Or.inr (Or.inl rfl)
    · rw [if_neg hie]
      exact Or.inl rfl
  | monthQuery d =>
    show validReply (if db.selectError then
        (retrieveErrMsg, [DbCall.selectRange (resolvedRange d.year d.month).1
          (resolvedRange d.year d.month).2])
      else ("Total cash for " ++ displayLabel d ++ ": $"
              ++ toFixed2 (sumRangeIncl db (resolvedRange d.year d.month).1
                  (resolvedRange d.year d.month).2),
            [DbCall.selectRange (resolvedRange d.year d.month).1
              (resolvedRange d.year d.month).2])).1
    by_cases hse : db.selectError = true
    · rw [if_pos hse]
      exact Or.inr (Or.inr (Or.inl rfl))
    · rw [if_neg hse]
      exact Or.inr (Or.inr (Or.inr (Or.inr (Or.inr (Or.inr
        ⟨d, sumRangeIncl db (resolvedRange d.year d.month).1 (resolvedRange d.year d.month).2,
          rfl⟩)))))
  | invalid => exact Or.inr (Or.inr (Or.inr (Or.inl rfl)))

/-! ### The claims -/

/-- C1 (amended): for every input classified as a month query, the resolved
range starts at the first instant of the matched month, but its end bound is
the last millisecond of that month — the first instant of the following
month minus one — and is compared inclusively (`lte`), not an exclusive
next-month boundary; the handler issues exactly one range query with those
bounds, and at millisecond granularity the rows it sums are exactly those
with `created_at` in the half-open interval from the month start to the
start of the following month. -/
theorem c1_month_range (s fr : List Char) (ry : Nat) (d : MDY) (db : Db)
    (hc : classify s ry = .monthQuery d) (hy : 1 ≤ d.year) :
    (handleSms ry ⟨some s, fr⟩ db).2
      = [DbCall.selectRange (monthStartMs d.year d.month) (nextMonthStartMs d.year d.month - 1)]
    ∧ nextMonthStartMs d.year d.month
      = monthStartMs d.year d.month + msPerDay * (daysInMonth d.year (d.month + 1) : Int)
    ∧ (db.selectError = false →
        (handleSms ry ⟨some s, fr⟩ db).1
          = "Total cash for " ++ displayLabel d ++ ": $"
              ++ toFixed2 (((db.rows.filter fun r =>
                  decide (monthStartMs d.year d.month ≤ r.1)
                    && decide (r.1 < nextMonthStartMs d.year d.month)).map Prod.snd).sum)) := by
  have hm := classify_month_le hc
  have hcal := nextMonthStart_eq hy hm
  refine ⟨?_, hcal, ?_⟩
  · rw [handleSms_some, hc]
    show (if db.selectError then
        (retrieveErrMsg, [DbCall.selectRange (resolvedRange d.year d.month).1
          (resolvedRange d.year d.month).2])
      else ("Total cash for " ++ displayLabel d ++ ": $"
              ++ toFixed2 (sumRangeIncl db (resolvedRange d.year d.month).1
                  (resolvedRange d.year d.month).2),
            [DbCall.selectRange (resolvedRange d.year d.month).1
              (resolvedRange d.year d.month).2])).2
      = [DbCall.selectRange (monthStartMs d.year d.month) (nextMonthStartMs d.year d.month - 1)]
    by_cases hse : db.selectError = true
    · rw [if_pos hse]
      rfl
    · rw [if_neg hse]
      rfl
  · intro hse
    rw [handleSms_some, hc]
    show (if db.selectError then
        (retrieveErrMsg, [DbCall.selectRange (resolvedRange d.year d.month).1
          (resolvedRange d.year d.month).2])
      else ("Total cash for " ++ displayLabel d ++ ": $"
              ++ toFixed2 (sumRangeIncl db (resolvedRange d.year d.month).1
                  (resolvedRange d.year d.month).2),
            [DbCall.selectRange (resolvedRange d.year d.month).1
              (resolvedRange d.year d.month).2])).1
      = _
    rw [if_neg (by simp [hse])]
    have hpq : ∀ x ∈ db.rows,
        (decide (monthStartMs d.year d.month ≤ x.1)
          && decide (x.1 ≤ nextMonthStartMs d.year d.month - 1))
        = (decide (monthStartMs d.year d.month ≤ x.1)
          && decide (x.1 < nextMonthStartMs d.year d.month)) := by
      intro x hx
      congr 1
      rw [decide_eq_decide]
      omega
    have hsum : sumRangeIncl db (monthStartMs d.year d.month) (nextMonthStartMs d.year d.month - 1)
        = ((db.rows.filter fun r =>
            decide (monthStartMs d.year d.month ≤ r.1)
              && decide (r.1 < nextMonthStartMs d.year d.month)).map Prod.snd).sum := by
      show ((db.rows.filter fun r =>
          decide (monthStartMs d.year d.month ≤ r.1)
            && decide (r.1 ≤ nextMonthStartMs d.year d.month - 1)).map Prod.snd).sum = _
      rw [List.filter_congr hpq]
    show "Total cash for " ++ displayLabel d ++ ": $"
        ++ toFixed2 (sumRangeIncl db (monthStartMs d.year d.month)
            (nextMonthStartMs d.year d.month - 1)) = _
    rw [hsum]

/-- C1 counterexample: for the month query "March 2023" the handler's end
bound is the last millisecond of March 2023 (compared inclusively), which is
not the first instant of April 2023 as the claim states — it is that
instant minus one millisecond. -/
theorem c1_half_open_counterexample :
    classify ("March 2023".toList) 2024 = .monthQuery ⟨2, 1, 2023⟩
    ∧ (handleSms 2024 ⟨some ("March 2023".toList), "+15551230000".toList⟩
        ⟨[], true, false⟩).2
      = [DbCall.selectRange (monthStartMs 2023 2) (endOfMonthMs 2023 2)]
    ∧ endOfMonthMs 2023 2 ≠ monthStartMs 2023 3
    ∧ endOfMonthMs 2023 2 = monthStartMs 2023 3 - 1 :=
  ⟨by decide, rfl, by decide, by decide⟩

/-- C1 witness: "March 2023" over a table holding a row at the last
millisecond of the range and a row at the first instant of April; only the
March row is summed. -/
theorem c1_month_range_witness :
    (handleSms 2024 ⟨some ("March 2023".toList), "+15551230000".toList⟩
        ⟨[((63813225600000 : Int), (40 : ℚ)), ((63815904000000 : Int), (100 : ℚ))],
          false, false⟩).2
      = [DbCall.selectRange (monthStartMs 2023 2) (nextMonthStartMs 2023 2 - 1)]
    ∧ nextMonthStartMs 2023 2 = monthStartMs 2023 2 + msPerDay * (daysInMonth 2023 3 : Int)
    ∧ (handleSms 2024 ⟨some ("March 2023".toList), "+15551230000".toList⟩
        ⟨[((63813225600000 : Int), (40 : ℚ)), ((63815904000000 : Int), (100 : ℚ))],
          false, false⟩).1
      = "Total cash for March 2023: $40.00" := by
  obtain ⟨h1, h2, h3⟩ := c1_month_range ("March 2023".toList) ("+15551230000".toList) 2024
      ⟨2, 1, 2023⟩
      ⟨[((63813225600000 : Int), (40 : ℚ)), ((63815904000000 : Int), (100 : ℚ))], false, false⟩
      (by decide) (by decide)
  refine ⟨h1, h2, ?_⟩
  rw [h3 rfl]
  have hfil : (((([((63813225600000 : Int), (40 : ℚ)), ((63815904000000 : Int), (100 : ℚ))] :
        List DbRow)).filter
      fun r => decide (monthStartMs 2023 2 ≤ r.1)
        && decide (r.1 < nextMonthStartMs 2023 2)).map Prod.snd).sum = 40 := by
    rw [show monthStartMs 2023 2 = 63813225600000 by decide,
      show nextMonthStartMs 2023 2 = 63815904000000 by decide]
    norm_num [List.filter_cons, List.filter_nil]
  rw [hfil]
  have hf : toFixed2 40 = "40.00" := by
    unfold toFixed2
    rw [show (⌊(40 : ℚ) * 100 + 1/2⌋ : ℤ) = 4000 by norm_num]
    decide
  rw [hf]
  decide

/-- C2: every handler invocation terminates in exactly one formatted reply
string drawn from the handler's reply shapes, and any exception raised inside
the `try` block is caught and converted to the generic fixed error reply, so
no unhandled failure propagates back to the transport layer. -/
theorem c2_reply_totality (ry : Nat) (req : RawRequest) (db : Db) :
    validReply (handleSms ry req db).1
    ∧ (∀ e, handleSmsInner ry req db = .error e →
        handleSms ry req db = (unexpectedMsg, [])) := by
  constructor
  · cases hb : req.body with
    | none =>
      unfold handleSms handleSmsInner
      rw [hb]
      exact Or.inr (Or.inr (Or.inr (Or.inr (Or.inl rfl))))
    | some b =>
      unfold handleSms handleSmsInner
      rw [hb]
      exact handleClassified_validReply (classify b ry) req.fromNumber db
  · intro e he
    cases hb : req.body with
    | none =>
      unfold handleSms handleSmsInner
      rw [hb]
    | some b =>
      unfold handleSmsInner at he
      rw [hb] at he
      exact absurd he (by simp)

/-- C2 witness: a request with no `Body` raises inside the `try` block and
is answered with the generic fixed error reply. -/
theorem c2_reply_totality_witness :
    validReply (handleSms 2024 ⟨none, "+15551230000".toList⟩ ⟨[], false, false⟩).1
    ∧ handleSms 2024 ⟨none, "+15551230000".toList⟩ ⟨[], false, false⟩ = (unexpectedMsg, []) :=
  ⟨(c2_reply_totality 2024 ⟨none, "+15551230000".toList⟩ ⟨[], false, false⟩).1,
   (c2_reply_totality 2024 ⟨none, "+15551230000".toList⟩ ⟨[], false, false⟩).2 _ rfl⟩

/-- C3: an input equal to "total" after trimming and lowercasing classifies
as Total; the handler makes exactly the unfiltered sum query, replies with
the formatted total on success and with the fixed retrieval error string on
persistence failure. -/
theorem c3_total_keyword (s fr : List Char) (ry : Nat) (db : Db)
    (h : jsToLower (jsTrim s) = "total".toList) :
    classify s ry = .total
    ∧ (handleSms ry ⟨some s, fr⟩ db).2 = [DbCall.selectAll]
    ∧ (db.selectError = false →
        (handleSms ry ⟨some s, fr⟩ db).1 = "Total cash collected: $" ++ toFixed2 (sumAll db))
    ∧ (db.selectError = true → (handleSms ry ⟨some s, fr⟩ db).1 = retrieveErrMsg) := by
  have hcl : classify s ry = .total := by
    unfold classify classifyTrimmed
    rw [if_pos h]
  refine ⟨hcl, ?_, ?_, ?_⟩
  · rw [handleSms_some, hcl]
    show (if db.selectError then (retrieveErrMsg, [DbCall.selectAll])
      else ("Total cash collected: $" ++ toFixed2 (sumAll db), [DbCall.selectAll])).2
        = [DbCall.selectAll]
    by_cases hse : db.selectError = true
    · rw [if_pos hse]
    · rw [if_neg hse]
  · intro hse
    rw [handleSms_some, hcl]
    show (if db.selectError then (retrieveErrMsg, [DbCall.selectAll])
      else ("Total cash collected: $" ++ toFixed2 (sumAll db), [DbCall.selectAll])).1
        = "Total cash collected: $" ++ toFixed2 (sumAll db)
    rw [if_neg (by simp [hse])]
  · intro hse
    rw [handleSms_some, hcl]
    show (if db.selectError then (retrieveErrMsg, [DbCall.selectAll])
      else ("Total cash collected: $" ++ toFixed2 (sumAll db), [DbCall.selectAll])).1
        = retrieveErrMsg
    rw [if_pos hse]

/-- C3 witness: " TOTAL " with entries 100 and 25.5 replies with the
formatted sum 125.50. -/
theorem c3_total_keyword_witness :
    classify (" TOTAL ".toList) 2024 = .total
    ∧ (handleSms 2024 ⟨some (" TOTAL ".toList), "+15551230000".toList⟩
        ⟨[((0 : Int), (100 : ℚ)), ((1 : Int), (51/2 : ℚ))], false, false⟩).2 = [DbCall.selectAll]
    ∧ (handleSms 2024 ⟨some (" TOTAL ".toList), "+15551230000".toList⟩
        ⟨[((0 : Int), (100 : ℚ)), ((1 : Int), (51/2 : ℚ))], false, false⟩).1
        = "Total cash collected: $125.50" := by
  obtain ⟨h1, h2, h3, h4⟩ := c3_total_keyword (" TOTAL ".toList) ("+15551230000".toList) 2024
      ⟨[((0 : Int), (100 : ℚ)), ((1 : Int), (51/2 : ℚ))], false, false⟩ (by decide)
  refine ⟨h1, h2, ?_⟩
  rw [h3 rfl]
  have hs : sumAll ⟨[((0 : Int), (100 : ℚ)), ((1 : Int), (51/2 : ℚ))], false, false⟩ = 251/2 := by
    simp only [sumAll, List.map_cons, List.map_nil, List.sum_cons, List.sum_nil]
    norm_num
  rw [hs]
  have hf : toFixed2 (251/2) = "125.50" := by
    unfold toFixed2
    rw [show (⌊(251/2 : ℚ) * 100 + 1/2⌋ : ℤ) = 12550 by norm_num]
    decide
  rw [hf]
  decide

/-- C4: an input matching the numeric regex after trimming classifies as a
cash entry carrying the parsed decimal; the handler makes exactly one insert
call keyed by the sender with that amount and replies with the fixed
confirmation on success (fixed save-error string on failure). -/
theorem c4_numeric_entry (s fr : List Char) (ry : Nat) (db : Db)
    (h : numTest (jsTrim s) = true) :
    classify s ry = .cashEntry (parseDec (jsTrim s))
    ∧ (handleSms ry ⟨some s, fr⟩ db).2 = [DbCall.insert fr (parseDec (jsTrim s))]
    ∧ (db.insertError = false → (handleSms ry ⟨some s, fr⟩ db).1 = recordedMsg)
    ∧ (db.insertError = true → (handleSms ry ⟨some s, fr⟩ db).1 = saveErrMsg) := by
  have hcl : classify s ry = .cashEntry (parseDec (jsTrim s)) := by
    unfold classify classifyTrimmed
    rw [if_neg (numTest_ne_total h), if_pos h]
  refine ⟨hcl, ?_, ?_, ?_⟩
  · rw [handleSms_some, hcl]
    show (if db.insertError then (saveErrMsg, [DbCall.insert fr (parseDec (jsTrim s))])
      else (recordedMsg, [DbCall.insert fr (parseDec (jsTrim s))])).2
        = [DbCall.insert fr (parseDec (jsTrim s))]
    by_cases hie : db.insertError = true
    · rw [if_pos hie]
    · rw [if_neg hie]
  · intro hie
    rw [handleSms_some, hcl]
    show (if db.insertError then (saveErrMsg, [DbCall.insert fr (parseDec (jsTrim s))])
      else (recordedMsg, [DbCall.insert fr (parseDec (jsTrim s))])).1 = recordedMsg
    rw [if_neg (by simp [hie])]
  · intro hie
    rw [handleSms_some, hcl]
    show (if db.insertError then (saveErrMsg, [DbCall.insert fr (parseDec (jsTrim s))])
      else (recordedMsg, [DbCall.insert fr (parseDec (jsTrim s))])).1 = saveErrMsg
    rw [if_pos hie]

/-- C4 witness: input "50" produces one insert of amount 50 keyed by the
sender and the fixed confirmation reply. -/
theorem c4_numeric_entry_witness :
    classify ("50".toList) 2024 = .cashEntry 50
    ∧ (handleSms 2024 ⟨some ("50".toList), "+15551230000".toList⟩ ⟨[], false, false⟩).2
        = [DbCall.insert ("+15551230000".toList) 50]
    ∧ (handleSms 2024 ⟨some ("50".toList), "+15551230000".toList⟩ ⟨[], false, false⟩).1
        = recordedMsg := by
  obtain ⟨h1, h2, h3, h4⟩ := c4_numeric_entry ("50".toList) ("+15551230000".toList) 2024
      ⟨[], false, false⟩ (by decide)
  exact ⟨h1, h2, h3 rfl⟩

/-- C5: "March 2023", "Mar 2023", "03/2023" and "3/2023" all classify as a
month query for March 2023 with identical resolved ranges, and "03/15/2023"
classifies to the same range with the day component ignored. -/
theorem c5_month_formats (ry : Nat) :
    classify ("March 2023".toList) ry = .monthQuery ⟨2, 1, 2023⟩
    ∧ classify ("Mar 2023".toList) ry = .monthQuery ⟨2, 1, 2023⟩
    ∧ classify ("03/2023".toList) ry = .monthQuery ⟨2, 1, 2023⟩
    ∧ classify ("3/2023".toList) ry = .monthQuery ⟨2, 1, 2023⟩
    ∧ classify ("03/15/2023".toList) ry = .monthQuery ⟨2, 15, 2023⟩
    ∧ intentRange (classify ("March 2023".toList) ry) = some (resolvedRange 2023 2)
    ∧ intentRange (classify ("Mar 2023".toList) ry)
        = intentRange (classify ("March 2023".toList) ry)
    ∧ intentRange (classify ("03/2023".toList) ry)
        = intentRange (classify ("March 2023".toList) ry)
    ∧ intentRange (classify ("3/2023".toList) ry)
        = intentRange (classify ("March 2023".toList) ry)
    ∧ intentRange (classify ("03/15/2023".toList) ry)
        = intentRange (classify ("March 2023".toList) ry) :=
  ⟨rfl, rfl, rfl, rfl, rfl, rfl, rfl, rfl, rfl, rfl⟩

/-- C6: when the six-format strict parse fails (and the keyword and numeric
checks did not match), classification retries on the trimmed input with a
space and the reference year appended, strict-parsed against only the two
month-name formats; in particular "March" with reference year 2024 is the
month query for March 2024. -/
theorem c6_bare_month_retry (s : List Char) (ry : Nat)
    (h1 : ¬jsToLower (jsTrim s) = "total".toList)
    (h2 : numTest (jsTrim s) = false)
    (h3 : firstParse (jsTrim s) = none) :
    classify s ry
      = (match pMonthNameFmt monthsFullL (jsTrim s ++ ' ' :: (toString ry).toList) with
          | some d => Intent.monthQuery d
          | none =>
            match pMonthNameFmt monthsShortL (jsTrim s ++ ' ' :: (toString ry).toList) with
            | some d => Intent.monthQuery d
            | none => Intent.invalid)
    ∧ classify ("March".toList) 2024 = .monthQuery ⟨2, 1, 2024⟩ := by
  constructor
  · unfold classify classifyTrimmed
    rw [if_neg h1, if_neg (by simp [h2]), h3]
    show (match retryParse (jsTrim s) ry with
      | some d => Intent.monthQuery d
      | none => Intent.invalid) = _
    unfold retryParse
    cases pMonthNameFmt monthsFullL (jsTrim s ++ ' ' :: (toString ry).toList) with
    | none =>
      cases pMonthNameFmt monthsShortL (jsTrim s ++ ' ' :: (toString ry).toList) with
      | none => rfl
      | some d => rfl
    | some d => rfl
  · rfl

/-- C6 witness at the bare month name "March" with reference year 2024. -/
theorem c6_bare_month_retry_witness :
    classify ("March".toList) 2024 = .monthQuery ⟨2, 1, 2024⟩
    ∧ classify ("March".toList) 2024
      = (match pMonthNameFmt monthsFullL (jsTrim ("March".toList)
            ++ ' ' :: (toString (2024 : Nat)).toList) with
          | some d => Intent.monthQuery d
          | none =>
            match pMonthNameFmt monthsShortL (jsTrim ("March".toList)
                ++ ' ' :: (toString (2024 : Nat)).toList) with
            | some d => Intent.monthQuery d
            | none => Intent.invalid) := by
  obtain ⟨hA, hB⟩ := c6_bare_month_retry ("March".toList) 2024 (by decide) (by decide) (by decide)
  exact ⟨hB, hA⟩

/-- C7: an input matching none of the keyword, numeric or date rules
classifies as Invalid; the handler then makes no persistence call and
replies with the fixed guidance string; "hello", "12.5.3" and "13/2023" are
such inputs for every reference year. -/
theorem c7_invalid_fallback (s fr : List Char) (ry : Nat) (db : Db)
    (h : classify s ry = .invalid) :
    handleSms ry ⟨some s, fr⟩ db = (invalidMsg, [])
    ∧ classify ("hello".toList) ry = .invalid
    ∧ classify ("12.5.3".toList) ry = .invalid
    ∧ classify ("13/2023".toList) ry = .invalid := by
  refine ⟨?_, rfl, rfl, rfl⟩
  rw [handleSms_some, h]
  rfl

/-- C7 witness at the input "hello". -/
theorem c7_invalid_fallback_witness :
    handleSms 2024 ⟨some ("hello".toList), "+15551230000".toList⟩ ⟨[], false, false⟩
      = (invalidMsg, [])
    ∧ classify ("hello".toList) 2024 = .invalid :=
  ⟨(c7_invalid_fallback ("hello".toList) ("+15551230000".toList) 2024 ⟨[], false, false⟩
      (by decide)).1,
   (c7_invalid_fallback ("hello".toList) ("+15551230000".toList) 2024 ⟨[], false, false⟩
      (by decide)).2.1⟩

/-- C9: classification is a pure, total, deterministic function of the input
string and the reference year, and it yields exactly one intent tag. -/
theorem c9_classification_pure (s : List Char) (ry : Nat) :
    classify s ry = classify s ry
    ∧ (∃! i : Fin 4, intentTag (classify s ry) = i)
    ∧ (classify s ry = .total ∨ (∃ a, classify s ry = .cashEntry a)
        ∨ (∃ d, classify s ry = .monthQuery d) ∨ classify s ry = .invalid) := by
  refine ⟨rfl, ⟨intentTag (classify s ry), rfl, fun j hj => hj.symm⟩, ?_⟩
  cases h : classify s ry with
  | total => exact Or.inl rfl
  | cashEntry a => exact Or.inr (Or.inl ⟨a, rfl⟩)
  | monthQuery d => exact Or.inr (Or.inr (Or.inl ⟨d, rfl⟩))
  | invalid => exact Or.inr (Or.inr (Or.inr rfl))

/-- C10: the body is trimmed once before every check, so adding leading or
trailing whitespace never changes the classification or the handler's
behaviour. -/
theorem c10_trim_invariant (w s w2 fr : List Char) (ry : Nat) (db : Db)
    (hw : ∀ c ∈ w, isWsC c = true) (hw2 : ∀ c ∈ w2, isWsC c = true) :
    classify (w ++ s ++ w2) ry = classify s ry
    ∧ handleSms ry ⟨some (w ++ s ++ w2), fr⟩ db = handleSms ry ⟨some s, fr⟩ db := by
  have hcl := classify_pad w s w2 ry hw hw2
  refine ⟨hcl, ?_⟩
  rw [handleSms_some, handleSms_some, hcl]

/-- C10 witness: padding "total" with a space and a tab changes nothing. -/
theorem c10_trim_invariant_witness :
    classify ((" ".toList) ++ "total".toList ++ ("\t".toList)) 2024
      = classify ("total".toList) 2024
    ∧ handleSms 2024 ⟨some ((" ".toList) ++ "total".toList ++ ("\t".toList)),
        "+15551230000".toList⟩ ⟨[], true, false⟩
      = handleSms 2024 ⟨some ("total".toList), "+15551230000".toList⟩ ⟨[], true, false⟩ :=
  c10_trim_invariant (" ".toList) ("total".toList) ("\t".toList) ("+15551230000".toList) 2024
    ⟨[], true, false⟩ (by decide) (by decide)

/-- C8 counterexample: in the node-cron variant the scheduled daily-prompt
trigger catches a rejected send inside its callback and completes normally,
so the failure is not signalled to any caller — contradicting the claim for
this trigger operation. -/
theorem c8_swallowed_failure_counterexample :
    cronCallbackBody ⟨some ("+15551230000".toList), "+15559990000".toList⟩
        (.err ("boom".toList))
      = (.error ("boom".toList),
         [⟨promptBody, "+15559990000".toList, "+15551230000".toList⟩])
    ∧ (cronCallback ⟨some ("+15551230000".toList), "+15559990000".toList⟩
        (.err ("boom".toList))).1 = .ok () :=
  ⟨rfl, rfl⟩

/-- C8 (amended): the HTTP trigger endpoint GET /send-sms sends the single
fixed prompt and signals the outcome to its caller — 200 "SMS sent." on
success, 500 "Error sending SMS." on failure — while the node-cron variant's
callback sends the same prompt but completes normally even when the send
fails, logging instead of signalling. -/
theorem c8_trigger_signalling (env : TrigEnv) (dest : List Char)
    (h : env.userPhoneNumber = some dest) :
    (∀ sid, sendSmsEndpoint env (.ok sid)
        = ((200, "SMS sent."), [⟨promptBody, env.twilioPhoneNumber, dest⟩]))
    ∧ (∀ e, sendSmsEndpoint env (.err e)
        = ((500, "Error sending SMS."), [⟨promptBody, env.twilioPhoneNumber, dest⟩]))
    ∧ (∀ e, cronCallback env (.err e)
        = (.ok (), [⟨promptBody, env.twilioPhoneNumber, dest⟩])) := by
  refine ⟨?_, ?_, ?_⟩ <;> intro x <;>
    simp only [sendSmsEndpoint, cronCallback, cronCallbackBody, h]

/-- C8 witness at a configured destination number. -/
theorem c8_trigger_signalling_witness :
    sendSmsEndpoint ⟨some ("+15551230000".toList), "+15559990000".toList⟩ (.ok ("SM1".toList))
      = ((200, "SMS sent."), [⟨promptBody, "+15559990000".toList, "+15551230000".toList⟩])
    ∧ sendSmsEndpoint ⟨some ("+15551230000".toList), "+15559990000".toList⟩
        (.err ("fail".toList))
      = ((500, "Error sending SMS."), [⟨promptBody, "+15559990000".toList,
          "+15551230000".toList⟩])
    ∧ cronCallback ⟨some ("+15551230000".toList), "+15559990000".toList⟩ (.err ("fail".toList))
      = (.ok (), [⟨promptBody, "+15559990000".toList, "+15551230000".toList⟩]) := by
  obtain ⟨hA, hB, hC⟩ := c8_trigger_signalling
      ⟨some ("+15551230000".toList), "+15559990000".toList⟩ ("+15551230000".toList) rfl
  exact ⟨hA ("SM1".toList), hB ("fail".toList), hC ("fail".toList)⟩

end CashTracker
